import Mathlib

/-!
Verification of `PythonZ_spread_Congr.py`, a one-shot QuantLib script that
computes the z-spread of a fixed-rate bond over a bootstrapped deposit curve.
The script's own logic (date setup, curve construction, bond construction,
spread solve, result collation) is embedded shallowly below; the QuantLib
primitives it composes (calendar arithmetic, ActualActual(Bond) day count,
schedule generation, fixed-rate legs, accrued interest, zero-spreaded term
structures) are translated from their documented library semantics, as the
spec treats them: external collaborators whose contracts are described.
All exact-date and money arithmetic is over `ℚ`; curve discounting and the
spread shift are over `ℝ`.
-/

namespace ZSpread

/-- A Gregorian calendar date, year/month/day. -/
structure Date where
  year : ℕ
  month : ℕ
  day : ℕ
deriving DecidableEq

/-- Gregorian leap-year test. -/
def isLeap (y : ℕ) : Bool :=
  y % 4 = 0 && (y % 100 ≠ 0 || y % 400 = 0)

/-- Days in a Gregorian month. -/
def daysInMonth (y m : ℕ) : ℕ :=
  if m = 2 then (if isLeap y then 29 else 28)
  else if m = 4 ∨ m = 6 ∨ m = 9 ∨ m = 11 then 30
  else 31

/-- Cumulative day count before month `m` in a non-leap year. -/
def cumDaysBeforeMonth (m : ℕ) : ℕ :=
  match m with
  | 1 => 0
  | 2 => 31
  | 3 => 59
  | 4 => 90
  | 5 => 120
  | 6 => 151
  | 7 => 181
  | 8 => 212
  | 9 => 243
  | 10 => 273
  | 11 => 304
  | 12 => 334
  | _ => 365

/-- Ordinal day of the year (1 = January 1). -/
def dayOfYear (d : Date) : ℕ :=
  cumDaysBeforeMonth d.month + (if isLeap d.year ∧ 3 ≤ d.month then 1 else 0) + d.day

/-- Leap years among `1, ..., y - 1` (Gregorian rule). -/
def leapsBefore (y : ℕ) : ℕ :=
  (y - 1) / 4 - (y - 1) / 100 + (y - 1) / 400

/-- Serial day number: 1899-12-31 is 0, so 1900-01-01 is 1 (a Monday). -/
def serial (d : Date) : ℕ :=
  365 * (d.year - 1900) + (leapsBefore d.year - leapsBefore 1900) + dayOfYear d

/-- Day of the week of a serial number: 0 = Sunday, ..., 6 = Saturday. -/
def weekdayOf (d : Date) : ℕ :=
  serial d % 7

/-- Saturday or Sunday. -/
def isWeekend (d : Date) : Bool :=
  weekdayOf d = 0 || weekdayOf d = 6

/-- Next calendar day, rolling month and year ends. -/
def nextDay (d : Date) : Date :=
  if d.day < daysInMonth d.year d.month then ⟨d.year, d.month, d.day + 1⟩
  else if d.month < 12 then ⟨d.year, d.month + 1, 1⟩
  else ⟨d.year + 1, 1, 1⟩

/-- Previous calendar day, rolling month and year starts. -/
def prevDay (d : Date) : Date :=
  if 1 < d.day then ⟨d.year, d.month, d.day - 1⟩
  else if 1 < d.month then ⟨d.year, d.month - 1, daysInMonth d.year (d.month - 1)⟩
  else ⟨d.year - 1, 12, 31⟩

/-- Date plus a signed number of months, clamping the day of the month
(QuantLib `Date` + `Period(n, Months)` semantics). -/
def addMonths (d : Date) (n : ℤ) : Date :=
  let total : ℤ := 12 * (d.year : ℤ) + ((d.month : ℤ) - 1) + n
  let y : ℕ := (total / 12).toNat
  let m : ℕ := (total % 12).toNat + 1
  ⟨y, m, min d.day (daysInMonth y m)⟩

/-- Gregorian Easter Sunday (anonymous Gregorian computus), as (month, day). -/
def easterSunday (y : ℕ) : ℕ × ℕ :=
  let a := y % 19
  let b := y / 100
  let c := y % 100
  let d := b / 4
  let e := b % 4
  let f := (b + 8) / 25
  let g := (b - f + 1) / 3
  let h := (19 * a + b - d - g + 15) % 30
  let i := c / 4
  let k := c % 4
  let l := (32 + 2 * e + 2 * i - h - k) % 7
  let m := (a + 11 * h + 22 * l) / 451
  ((h + l + 114 - 7 * m) / 31, (h + l + 114 - 7 * m) % 31 + 1)

/-- Day of the year of Easter Monday of year `y`. -/
def easterMondayDoy (y : ℕ) : ℕ :=
  dayOfYear (nextDay ⟨y, (easterSunday y).1, (easterSunday y).2⟩)

/-- QuantLib `Germany()` (settlement) business-day test: weekends, New Year's
Day, Good Friday, Easter Monday, Ascension Thursday, Whit Monday, Corpus
Christi, Labour Day, National Day, Christmas Eve, Christmas, Boxing Day and
New Year's Eve are holidays. -/
def germanyIsBusinessDay (d : Date) : Bool :=
  let dd := dayOfYear d
  let em := easterMondayDoy d.year
  ¬ (isWeekend d
    || (d.day = 1 && d.month = 1)
    || dd = em - 3
    || dd = em
    || dd = em + 38
    || dd = em + 49
    || dd = em + 59
    || (d.day = 1 && d.month = 5)
    || (d.day = 3 && d.month = 10)
    || (d.day = 24 && d.month = 12)
    || (d.day = 25 && d.month = 12)
    || (d.day = 26 && d.month = 12)
    || (d.day = 31 && d.month = 12))

/-- A calendar is its business-day predicate. -/
def Calendar : Type := Date → Bool

/-- The script's calendar, `calendar = Germany()`. -/
def germany : Calendar := germanyIsBusinessDay

/-- First business day at or after `d` (fuel-bounded forward scan). -/
def followingAux (cal : Calendar) : ℕ → Date → Date
  | 0, d => d
  | fuel + 1, d => if cal d then d else followingAux cal fuel (nextDay d)

/-- First business day at or before `d` (fuel-bounded backward scan). -/
def precedingAux (cal : Calendar) : ℕ → Date → Date
  | 0, d => d
  | fuel + 1, d => if cal d then d else precedingAux cal fuel (prevDay d)

/-- QuantLib business-day conventions used by the script. -/
inductive BDC where
  | following
  | modifiedFollowing
  | preceding
  | unadjusted
deriving DecidableEq

/-- QuantLib `Calendar::adjust`: roll a date onto a business day. -/
def adjust (cal : Calendar) (conv : BDC) (d : Date) : Date :=
  match conv with
  | .unadjusted => d
  | .following => followingAux cal 366 d
  | .preceding => precedingAux cal 366 d
  | .modifiedFollowing =>
      let f := followingAux cal 366 d
      if f.month ≠ d.month then precedingAux cal 366 d else f

/-- QuantLib `Calendar::advance(d, n, Days)` for `n ≥ 0`: step forward one
calendar day at a time, landing on business days `n` times. -/
def advanceBusinessDays (cal : Calendar) : ℕ → Date → Date
  | 0, d => d
  | n + 1, d => advanceBusinessDays cal n (followingAux cal 366 (nextDay d))

/-- QuantLib `Calendar::advance(d, n, Months/Years, conv)`: shift by whole
months, then adjust by the convention. -/
def advanceMonths (cal : Calendar) (conv : BDC) (d : Date) (n : ℤ) : Date :=
  adjust cal conv (addMonths d n)

/-- Signed day difference between two dates. -/
def daysBetween (d1 d2 : Date) : ℤ :=
  (serial d2 : ℤ) - (serial d1 : ℤ)

/-- Modelled from the spec: the library's ActualActual(Bond) (= ISMA) day-count
fraction, a delegated primitive ("day-count fraction computation for multiple
conventions"). The reference period defaults to the accrual period itself; a
reference period rounding to zero months is replaced by one year from the
start date; the fraction is `(months/12) · days(d1,d2) / days(ref1,ref2)`,
the ISMA rule for an accrual period inside its reference period — the only
case this script's schedules and deposit tenors produce. -/
def yfISMA (d1 d2 : Date) (ref : Option (Date × Date)) : ℚ :=
  if d1 = d2 then 0
  else
    let r1 := (ref.map Prod.fst).getD d1
    let r2 := (ref.map Prod.snd).getD d2
    let m0 : ℤ := round ((12 * (daysBetween r1 r2 : ℚ)) / 365)
    let r1' := if m0 = 0 then d1 else r1
    let r2' := if m0 = 0 then addMonths d1 12 else r2
    let months : ℤ := if m0 = 0 then 12 else m0
    ((months : ℚ) / 12) * (daysBetween d1 d2 : ℚ) / (daysBetween r1' r2' : ℚ)

/-! ## Global data of the script (section 1) -/

/-- The hard-coded `valuation_date = Date(19,7,2019)` before the business-day advance. -/
def rawValuationDate : Date := ⟨2019, 7, 19⟩

/-- The hard-coded `maturity_date = Date(30,7,2041)`. -/
def maturityDate : Date := ⟨2041, 7, 30⟩

/-- The script's `payment_frequency = Annual`, as a period length in months. -/
def paymentFrequencyMonths : ℕ := 12

/-- The script's `settlement_days = 0`. -/
def settlementDays : ℕ := 0

/-- The script's `face = 100`. -/
def face : ℚ := 100

/-- The script's `coupon = 0.047`. -/
def coupon : ℚ := 0.047

/-- The script's `market_value = 170.386`. -/
def market_value : ℚ := 170.386

/-- A deposit-quote tenor of the script's table. -/
inductive Tenor where
  | days (n : ℕ)
  | years (n : ℕ)
deriving DecidableEq

/-- The script's `zcQuotes` table of deposit rates by tenor. -/
def zcQuotes : List (ℚ × Tenor) :=
  [(-0.00368, .days 1),
   (-0.004313, .years 1),
   (-0.0046, .years 2),
   (-0.00435, .years 3),
   (-0.0038, .years 4),
   (-0.003113, .years 5),
   (-0.002350, .years 6),
   (-0.001525, .years 7),
   (-0.000663, .years 8),
   (0.000188, .years 9),
   (0.001, .years 10),
   (0.00171, .years 11),
   (0.00245, .years 12),
   (0.004175, .years 15),
   (0.005863, .years 20),
   (0.006475, .years 25),
   (0.006625, .years 30),
   (0.006531, .years 40),
   (0.006242, .years 50)]

/-! ## Date setup (section 2) -/

/-- The script's date setup, `valuation_date = calendar.advance(valuation_date, 2, Days)`. -/
def valuation_date : Date := advanceBusinessDays germany 2 rawValuationDate

/-- The global `Settings.instance().evaluationDate = valuation_date`: the single
as-of date every later calculation reads. -/
def evaluationDate : Date := valuation_date

/-! ## Yield term structure (section 3, `getTermStructure`) -/

/-- A `DepositRateHelper`'s maturity pillar: the quote's tenor advanced from
the spot date on the given calendar and convention (`fixing_days = 0`, so the
spot date is the curve's reference date). -/
def depositMaturity (cal : Calendar) (conv : BDC) (spot : Date) : Tenor → Date
  | .days n => advanceBusinessDays cal n spot
  | .years n => advanceMonths cal conv spot (12 * n)

/-- Modelled from the spec: the delegated `PiecewiseFlatForward` bootstrap
("yield curve bootstrapping and interpolation") threads the discount curve
through every deposit observation, so the reference-date node carries
discount 1 and each pillar's discount reprices its simple deposit quote:
`df = 1 / (1 + r·τ)` with `τ` the helper's ActualActual(Bond) year
fraction. -/
def curveNodes (spot : Date) (quotes : List (ℚ × Tenor)) (cal : Calendar)
    (conv : BDC) : List (Date × ℚ) :=
  (spot, 1) ::
    quotes.map (fun q =>
      let m := depositMaturity cal conv spot q.2
      (m, 1 / (1 + q.1 * yfISMA spot m none)))

/-- The nodes of `bondDiscountingTermStructure = getTermStructure(...)`. -/
def programCurveNodes : List (Date × ℚ) :=
  curveNodes valuation_date zcQuotes germany .modifiedFollowing

/-! ## Bond setup (section 4, `getBond`) -/

/-- One fixed-rate coupon of the bond's leg. -/
structure Coupon where
  paymentDate : Date
  accrualStart : Date
  accrualEnd : Date
  refStart : Date
  refEnd : Date
  nominal : ℚ
  rate : ℚ
deriving DecidableEq

/-- A fixed coupon's amount: `nominal · rate · ActualActual(Bond) fraction`
of its accrual period against its reference period. -/
def Coupon.amount (c : Coupon) : ℚ :=
  c.nominal * c.rate * yfISMA c.accrualStart c.accrualEnd (some (c.refStart, c.refEnd))

/-- The redemption cash flow. -/
structure SimpleFlow where
  paymentDate : Date
  amount : ℚ
deriving DecidableEq

/-- The schedule `Schedule(issue, maturity, Period(freq), calendar, Unadjusted, Unadjusted,
DateGeneration.Backward, False)`: walk back from maturity by whole periods,
keep the dates unadjusted, and insert the effective date as a short front
stub when the walk does not land on it. Fuel-bounded recursion. -/
def scheduleBackwardAux (maturity effective : Date) (tenorMonths : ℕ) :
    ℕ → ℕ → List Date → List Date
  | 0, _, acc => acc
  | fuel + 1, k, acc =>
    let dk := addMonths maturity (-(tenorMonths * (k + 1) : ℤ))
    if serial dk < serial effective then
      match acc.head? with
      | some h => if h = effective then acc else effective :: acc
      | none => effective :: acc
    else scheduleBackwardAux maturity effective tenorMonths fuel (k + 1) (dk :: acc)

/-- The backward-generated, unadjusted schedule from `effective` to `maturity`. -/
def scheduleBackward (effective maturity : Date) (tenorMonths : ℕ) : List Date :=
  scheduleBackwardAux maturity effective tenorMonths 1000 0 [maturity]

/-- The `FixedRateLeg`: one coupon per consecutive schedule pair, payment dates
rolled by the payment convention on the calendar; an irregular first (last)
period takes its reference start (end) one whole period back from (forward
of) the accrual end (start) — with this schedule's Unadjusted convention
that is plain month arithmetic, and it coincides with the accrual date when
the period is regular. -/
def mkCouponsAux (tenorMonths : ℤ) (cal : Calendar) (payConv : BDC)
    (nominal rate : ℚ) : Bool → Date → List Date → List Coupon
  | _, _, [] => []
  | isFirst, prev, next :: rest =>
    { paymentDate := adjust cal payConv next
      accrualStart := prev
      accrualEnd := next
      refStart := if isFirst then addMonths next (-tenorMonths) else prev
      refEnd := if rest = [] then addMonths prev tenorMonths else next
      nominal := nominal
      rate := rate } :: mkCouponsAux tenorMonths cal payConv nominal rate false next rest

/-- The bond's coupon leg from its schedule. -/
def mkCoupons (sched : List Date) (tenorMonths : ℕ) (cal : Calendar)
    (payConv : BDC) (nominal rate : ℚ) : List Coupon :=
  match sched with
  | [] => []
  | s0 :: rest => mkCouponsAux (tenorMonths : ℤ) cal payConv nominal rate true s0 rest

/-- The cash-flow data of a `FixedRateBond`. -/
structure BondData where
  face : ℚ
  rate : ℚ
  issueDate : Date
  schedule : List Date
  coupons : List Coupon
  redemption : SimpleFlow
deriving DecidableEq

/-- The bond `FixedRateBond(0, face, schedule, [coupon], dayCounter, payment_convention,
100, issue_date)`: the coupon leg plus a single redemption of
`face · redemptionPct / 100` (the `100` argument is a percentage of face,
i.e. par) at the last payment date. -/
def fixedRateBond (faceAmount : ℚ) (sched : List Date) (rate : ℚ)
    (payConv : BDC) (redemptionPct : ℚ) (issue : Date) (cal : Calendar)
    (tenorMonths : ℕ) : BondData :=
  let cps := mkCoupons sched tenorMonths cal payConv faceAmount rate
  { face := faceAmount
    rate := rate
    issueDate := issue
    schedule := sched
    coupons := cps
    redemption :=
      { paymentDate := adjust cal payConv (sched.getLastD issue)
        amount := faceAmount * redemptionPct / 100 } }

/-- A coupon's `Coupon::accruedAmount(d)`: zero outside the coupon's
running window, otherwise the simple-rate accrual from the period start to
`min(d, accrualEnd)` under the coupon's day count and reference period. -/
def couponAccrued (c : Coupon) (s : Date) : ℚ :=
  if serial s ≤ serial c.accrualStart ∨ serial c.paymentDate < serial s then 0
  else
    c.nominal * c.rate *
      yfISMA c.accrualStart (if serial s ≤ serial c.accrualEnd then s else c.accrualEnd)
        (some (c.refStart, c.refEnd))

/-- The bond's `Bond::accruedAmount`: the running coupons' accrual, rescaled to a
per-100-face quotation (`× 100 / notional`). -/
def BondData.accruedAmount (b : BondData) (s : Date) : ℚ :=
  (b.coupons.map (fun c => couponAccrued c s)).sum * 100 / b.face

/-- The bond's cash flows as (amount, payment date) pairs: the coupon leg
followed by the redemption, as `fixedRateBond.cashflows()` returns them. -/
def BondData.flows (b : BondData) : List (ℚ × Date) :=
  b.coupons.map (fun c => (c.amount, c.paymentDate)) ++
    [(b.redemption.amount, b.redemption.paymentDate)]

/-! ## Discounting with a zero spread (sections 4 and 5)

Two distinct spread semantics appear in the script. `CashFlows.zSpread` is
called with `compounding = SimpleThenCompounded` and the bond's `Annual`
frequency, so the solver shifts the curve's SimpleThenCompounded zero rate.
`getBond` wraps the base curve in `ZeroSpreadedTermStructure(handle, quote)`
with the constructor's default `Continuous` compounding, so the rebuilt
bond's engine shifts the continuously-compounded zero rate instead. -/

/-- Modelled from the spec: the zero rate a discount factor implies under
SimpleThenCompounded compounding at annual frequency — simple for times up
to one year, annually compounded beyond. -/
noncomputable def stcZeroRate (df t : ℝ) : ℝ :=
  if t ≤ 1 then (1 / df - 1) / t else df ^ (-1 / t) - 1

/-- Modelled from the spec: the discount factor of a SimpleThenCompounded
annual zero rate. -/
noncomputable def stcDiscount (r t : ℝ) : ℝ :=
  if t ≤ 1 then 1 / (1 + r * t) else (1 + r) ^ (-t)

/-- The discount factor the spread solver prices with: the base curve's
SimpleThenCompounded zero rate, shifted by `z`, re-discounted
(`ZeroSpreadedTermStructure` built inside `CashFlows::zSpread` from the
compounding and frequency the script passes). -/
noncomputable def stcSpreadedDiscount (base : ℝ → ℝ) (z t : ℝ) : ℝ :=
  stcDiscount (stcZeroRate (base t) t + z) t

/-- The discount factor of the rebuilt bond's engine: `getBond` constructs
`ZeroSpreadedTermStructure(discountingTermStructure, zSpreadQuoteHandle)`
with the default Continuous compounding, so the continuous zero rate
`-log df / t` is shifted by `z` and the discount is `df · exp(-z t)`. -/
noncomputable def contSpreadedDiscount (base : ℝ → ℝ) (z t : ℝ) : ℝ :=
  Real.exp (-(-Real.log (base t) / t + z) * t)

/-- The curve time of a date: the day counter's year fraction from the
evaluation date (`YieldTermStructure::timeFromReference`). -/
noncomputable def timeTo (d : Date) : ℝ :=
  ((yfISMA evaluationDate d none : ℚ) : ℝ)

/-- Present value of (amount, time) cash flows under the solver's
spread-shifted curve. -/
noncomputable def legPV (base : ℝ → ℝ) (z : ℝ) (leg : List (ℝ × ℝ)) : ℝ :=
  (leg.map (fun p => p.1 * stcSpreadedDiscount base z p.2)).sum

/-- Present value of (amount, time) cash flows under the rebuilt bond's
continuously-shifted curve. -/
noncomputable def legPVCont (base : ℝ → ℝ) (z : ℝ) (leg : List (ℝ × ℝ)) : ℝ :=
  (leg.map (fun p => p.1 * contSpreadedDiscount base z p.2)).sum

/-- The (amount, time) leg the solver prices: flows not yet occurred at the
settlement date, kept when they fall on it (`includeSettlementDateFlows =
True`, the script's last argument to `CashFlows.zSpread`). -/
noncomputable def solverLeg (b : BondData) (s : Date) : List (ℝ × ℝ) :=
  (b.flows.filter (fun f => serial s ≤ serial f.2)).map
    (fun f => ((f.1 : ℝ), timeTo f.2))

/-- The solver's objective: the present value `CashFlows::zSpread` compares
with the target dirty price at spread `z`. -/
noncomputable def solverNPV (b : BondData) (s : Date) (base : ℝ → ℝ) (z : ℝ) : ℝ :=
  legPV base z (solverLeg b s)

/-- A bond with its discounting engine: the cash-flow data plus the engine's
relinked base curve and the zero spread baked into it. -/
structure Bond where
  data : BondData
  engineBase : ℝ → ℝ
  engineSpread : ℝ

/-- The constructor `getBond(valuation_date, maturity_date, payment_frequency, calendar,
face, coupon, payment_convention, termStructure, z_spread)`: issue date one
year (one business-day-adjusted year) before valuation, backward schedule,
fixed-rate cash flows, and a discounting engine over the spread-shifted
curve. -/
def getBond (valuation maturity : Date) (freqMonths : ℕ) (cal : Calendar)
    (faceAmount couponRate : ℚ) (payConv : BDC) (base : ℝ → ℝ) (z : ℝ) : Bond :=
  let issue := advanceMonths cal .following valuation (-12)
  let sched := scheduleBackward issue maturity freqMonths
  { data := fixedRateBond faceAmount sched couponRate payConv 100 issue cal freqMonths
    engineBase := base
    engineSpread := z }

/-- The price `fixedRateBond.NPV()`: flows strictly after the settlement date, priced
by the engine's continuously-shifted curve. -/
noncomputable def Bond.npv (bond : Bond) (s : Date) : ℝ :=
  legPVCont bond.engineBase bond.engineSpread
    ((bond.data.flows.filter (fun f => serial s < serial f.2)).map
      (fun f => ((f.1 : ℝ), timeTo f.2)))

/-! ## The script's main sequence (sections 4–6) -/

/-- The bond's `issue_date = calendar.advance(valuation_date, -1, Years)`. -/
def programIssueDate : Date := advanceMonths germany .following valuation_date (-12)

/-- The bond's payment schedule. -/
def programSchedule : List Date :=
  scheduleBackward programIssueDate maturityDate paymentFrequencyMonths

/-- The cash-flow data of `fixedRateBond = getBond(...)` (independent of the
engine's spread). -/
def programBondData : BondData :=
  fixedRateBond face programSchedule coupon .modifiedFollowing 100
    programIssueDate germany paymentFrequencyMonths

/-- The bond the script builds, first with `z_spread` defaulted to 0 and then
rebuilt with the solved spread, over the bootstrapped base curve. -/
def programBond (base : ℝ → ℝ) (z : ℝ) : Bond :=
  getBond valuation_date maturityDate paymentFrequencyMonths germany face coupon
    .modifiedFollowing base z

/-- The bond's accrued interest at the evaluation date. -/
def programAccrued : ℚ := programBondData.accruedAmount evaluationDate

/-- The second argument of `CashFlows.zSpread`: `market_value +
fixedRateBond.accruedAmount()` — the dirty target price. -/
def programTarget : ℚ := market_value + programAccrued

/-- The labels `getResults` prints, in order. -/
def getResultsLabels : List String :=
  ["Duration: ", "Convexity: ", "Bps: ", "Basis Pt Value: ", "NPV: ",
   "Yield Value Bp: ", "Yield to Maturity: ", "Accrued: "]

/-- The labels of all lines one run prints: the `Z_Spread` line of the main
sequence followed by `getResults`' lines. -/
def programOutputLabels : List String := "Z_Spread: " :: getResultsLabels

/-- The domain on which the solver's spread shift of one cash flow is a
well-formed discounting: the shifted compounding factor stays positive on
the branch the flow's time selects. -/
def shiftOK (base : ℝ → ℝ) (z : ℝ) (p : ℝ × ℝ) : Prop :=
  if p.2 ≤ 1 then 0 < 1 + (stcZeroRate (base p.2) p.2 + z) * p.2
  else 0 < 1 + (stcZeroRate (base p.2) p.2 + z)

/-! ## Evaluation lemmas -/

/-- The ISMA fraction of the coupon period running at the evaluation date:
358 of the 365 days of the 2018-07-30 → 2019-07-30 reference period. -/
theorem currentCouponYF :
    yfISMA ⟨2018, 7, 30⟩ ⟨2019, 7, 23⟩ (some (⟨2018, 7, 30⟩, ⟨2019, 7, 30⟩)) =
      358 / 365 := by
  simp only [yfISMA, Option.map, Option.getD]
  norm_num [show daysBetween ⟨2018, 7, 30⟩ ⟨2019, 7, 30⟩ = 365 from by decide,
    show daysBetween ⟨2018, 7, 30⟩ ⟨2019, 7, 23⟩ = 358 from by decide, round_eq]

/-- Of the bond's 24 coupons, only the one accruing over 2018-07-30 →
2019-07-30 is running at the evaluation date; the stub has been paid and the
rest have not started. -/
theorem accruedMapEval :
    programBondData.coupons.map (fun c => couponAccrued c evaluationDate) =
      [0,
       face * coupon *
         yfISMA ⟨2018, 7, 30⟩ ⟨2019, 7, 23⟩ (some (⟨2018, 7, 30⟩, ⟨2019, 7, 30⟩)),
       0, 0, 0, 0, 0, 0, 0, 0, 0, 0, 0, 0, 0, 0, 0, 0, 0, 0, 0, 0, 0, 0] := rfl

/-- The bond's accrued interest at the evaluation date: `100 · 0.047 ·
358/365 = 8413/1825 ≈ 4.6099`. -/
theorem accruedEval :
    programBondData.accruedAmount evaluationDate = 8413 / 1825 := by
  simp only [BondData.accruedAmount, accruedMapEval, currentCouponYF,
    List.sum_cons, List.sum_nil, show programBondData.face = face from rfl]
  norm_num [face, coupon]

/-- A whole number of years under the no-reference ISMA day count: when the
interval's day count rounds to `12n` months, the fraction collapses to `n`. -/
theorem yfISMA_noref_whole_years (d1 d2 : Date) (n dys : ℤ)
    (hne : d1 ≠ d2) (hdb : daysBetween d1 d2 = dys)
    (hr : round ((12 * (dys : ℚ)) / 365) = 12 * n) (hn : n ≠ 0) :
    yfISMA d1 d2 none = (n : ℚ) := by
  have hd0 : dys ≠ 0 := by
    rintro rfl
    rw [show ((0 : ℤ) : ℚ) = 0 from rfl] at hr
    norm_num [round_eq] at hr
    exact hn hr
  have h12 : (12 * n : ℤ) ≠ 0 := mul_ne_zero (by norm_num) hn
  have hq : ((dys : ℤ) : ℚ) ≠ 0 := Int.cast_ne_zero.mpr hd0
  simp only [yfISMA, Option.map, Option.getD, if_neg hne, hdb, hr, if_neg h12]
  push_cast
  field_simp

/-- A short no-reference ISMA interval: a day count rounding to zero months
switches the reference period to one year from the start date. -/
theorem yfISMA_noref_short (d1 d2 : Date) (a b : ℤ)
    (hne : d1 ≠ d2) (hdb : daysBetween d1 d2 = a)
    (hb : daysBetween d1 (addMonths d1 12) = b)
    (hr : round ((12 * (a : ℚ)) / 365) = 0) (hb0 : b ≠ 0) :
    yfISMA d1 d2 none = (a : ℚ) / (b : ℚ) := by
  have hq : ((b : ℤ) : ℚ) ≠ 0 := Int.cast_ne_zero.mpr hb0
  simp only [yfISMA, Option.map, Option.getD, if_neg hne, hdb, hr, if_true]
  rw [hb]
  push_cast
  ring

/-! ## Theorems -/

/-- C2: the target handed to `CashFlows.zSpread` is the dirty price — the
quoted clean market value plus the bond's accrued interest at the valuation
date (358/365 of an annual 4.7% coupon on 100 face, 8413/1825 ≈ 4.6099), and
is therefore strictly above the clean price alone. -/
theorem C2_target_is_dirty_price :
    programTarget = market_value + programBondData.accruedAmount evaluationDate ∧
    programBondData.accruedAmount evaluationDate = 8413 / 1825 ∧
    market_value < programTarget := by
  refine ⟨rfl, accruedEval, ?_⟩
  simp only [programTarget, programAccrued, accruedEval]
  norm_num [market_value]

/-- C3 counterexample: the script does not roll the hard-coded 2019-07-19 to
the next business day — that roll is the identity (2019-07-19 is a Friday
and a German business day), while the script's `calendar.advance(date, 2,
Days)` moves two business days ahead, to 2019-07-23. -/
theorem C3_roll_counterexample :
    adjust germany .following rawValuationDate = rawValuationDate ∧
    valuation_date = ⟨2019, 7, 23⟩ ∧
    valuation_date ≠ adjust germany .following rawValuationDate := by
  decide

/-- C3 (amended): the hard-coded 2019-07-19 is advanced by two business days
under the German calendar, giving 2019-07-23, and that date is the global
evaluation date anchoring the curve, the bond's issue date derivation and
the accrued-interest settlement. -/
theorem C3_valuation_date_amended :
    valuation_date = advanceBusinessDays germany 2 rawValuationDate ∧
    valuation_date = ⟨2019, 7, 23⟩ ∧
    evaluationDate = valuation_date ∧
    programCurveNodes.head? = some (evaluationDate, 1) ∧
    programIssueDate = advanceMonths germany .following evaluationDate (-12) ∧
    programAccrued = programBondData.accruedAmount evaluationDate := by
  exact ⟨rfl, by decide, rfl, by decide, rfl, rfl⟩

/-- C7: for the valuation date the script passes to `getBond`, the issue
date is the valuation date minus one year (the business-day adjustment of
2018-07-23 is the identity), and the schedule is generated backward from
2041-07-30 in annual steps, unadjusted — it retains 2022-07-30, a Saturday —
with the issue date as a short front stub. -/
theorem C7_issue_date_and_schedule :
    programIssueDate = addMonths valuation_date (-12) ∧
    programIssueDate = ⟨2018, 7, 23⟩ ∧
    programBondData.issueDate = programIssueDate ∧
    programSchedule = scheduleBackward programIssueDate maturityDate 12 ∧
    programSchedule =
      [⟨2018, 7, 23⟩, ⟨2018, 7, 30⟩, ⟨2019, 7, 30⟩, ⟨2020, 7, 30⟩,
       ⟨2021, 7, 30⟩, ⟨2022, 7, 30⟩, ⟨2023, 7, 30⟩, ⟨2024, 7, 30⟩,
       ⟨2025, 7, 30⟩, ⟨2026, 7, 30⟩, ⟨2027, 7, 30⟩, ⟨2028, 7, 30⟩,
       ⟨2029, 7, 30⟩, ⟨2030, 7, 30⟩, ⟨2031, 7, 30⟩, ⟨2032, 7, 30⟩,
       ⟨2033, 7, 30⟩, ⟨2034, 7, 30⟩, ⟨2035, 7, 30⟩, ⟨2036, 7, 30⟩,
       ⟨2037, 7, 30⟩, ⟨2038, 7, 30⟩, ⟨2039, 7, 30⟩, ⟨2040, 7, 30⟩,
       ⟨2041, 7, 30⟩] ∧
    (⟨2022, 7, 30⟩ ∈ programSchedule ∧ isWeekend ⟨2022, 7, 30⟩ = true) := by
  decide

/-- C9 counterexample: `getResults` prints eight labeled lines, not seven,
so one run prints nine lines in all, not "seven plus the spread". -/
theorem C9_line_count_counterexample :
    programOutputLabels.length = 9 ∧ getResultsLabels.length ≠ 7 := by
  decide

/-- C9 (amended): one run prints the solved spread in basis points followed
by eight labeled numeric lines, nine lines total, in the fixed order
Z_Spread, Duration, Convexity, Bps, Basis Pt Value, NPV, Yield Value Bp,
Yield to Maturity, Accrued. -/
theorem C9_output_lines_amended :
    programOutputLabels =
      ["Z_Spread: ", "Duration: ", "Convexity: ", "Bps: ", "Basis Pt Value: ",
       "NPV: ", "Yield Value Bp: ", "Yield to Maturity: ", "Accrued: "] ∧
    getResultsLabels.length = 8 := by
  decide

/-- The one-day pillar's year fraction, 1/366 of the leap year ahead. -/
theorem tauP1 : yfISMA valuation_date ⟨2019, 7, 24⟩ none = 1 / 366 := by
  have h := yfISMA_noref_short valuation_date ⟨2019, 7, 24⟩ 1 366 (by decide)
    (by decide) (by decide) (by norm_num [round_eq]) (by norm_num)
  norm_num at h
  exact h

/-- The 1-year pillar's year fraction. -/
theorem tauP2 : yfISMA valuation_date ⟨2020, 7, 23⟩ none = 1 := by
  have h := yfISMA_noref_whole_years valuation_date ⟨2020, 7, 23⟩ 1 366
    (by decide) (by decide) (by norm_num [round_eq]) (by norm_num)
  exact_mod_cast h

/-- The 2-year pillar's year fraction. -/
theorem tauP3 : yfISMA valuation_date ⟨2021, 7, 23⟩ none = 2 := by
  have h := yfISMA_noref_whole_years valuation_date ⟨2021, 7, 23⟩ 2 731
    (by decide) (by decide) (by norm_num [round_eq]) (by norm_num)
  exact_mod_cast h

/-- The 3-year pillar's year fraction. -/
theorem tauP4 : yfISMA valuation_date ⟨2022, 7, 25⟩ none = 3 := by
  have h := yfISMA_noref_whole_years valuation_date ⟨2022, 7, 25⟩ 3 1098
    (by decide) (by decide) (by norm_num [round_eq]) (by norm_num)
  exact_mod_cast h

/-- The 4-year pillar's year fraction. -/
theorem tauP5 : yfISMA valuation_date ⟨2023, 7, 24⟩ none = 4 := by
  have h := yfISMA_noref_whole_years valuation_date ⟨2023, 7, 24⟩ 4 1462
    (by decide) (by decide) (by norm_num [round_eq]) (by norm_num)
  exact_mod_cast h

/-- The 5-year pillar's year fraction. -/
theorem tauP6 : yfISMA valuation_date ⟨2024, 7, 23⟩ none = 5 := by
  have h := yfISMA_noref_whole_years valuation_date ⟨2024, 7, 23⟩ 5 1827
    (by decide) (by decide) (by norm_num [round_eq]) (by norm_num)
  exact_mod_cast h

/-- The 6-year pillar's year fraction. -/
theorem tauP7 : yfISMA valuation_date ⟨2025, 7, 23⟩ none = 6 := by
  have h := yfISMA_noref_whole_years valuation_date ⟨2025, 7, 23⟩ 6 2192
    (by decide) (by decide) (by norm_num [round_eq]) (by norm_num)
  exact_mod_cast h

/-- The 7-year pillar's year fraction. -/
theorem tauP8 : yfISMA valuation_date ⟨2026, 7, 23⟩ none = 7 := by
  have h := yfISMA_noref_whole_years valuation_date ⟨2026, 7, 23⟩ 7 2557
    (by decide) (by decide) (by norm_num [round_eq]) (by norm_num)
  exact_mod_cast h

/-- The 8-year pillar's year fraction. -/
theorem tauP9 : yfISMA valuation_date ⟨2027, 7, 23⟩ none = 8 := by
  have h := yfISMA_noref_whole_years valuation_date ⟨2027, 7, 23⟩ 8 2922
    (by decide) (by decide) (by norm_num [round_eq]) (by norm_num)
  exact_mod_cast h

/-- The 9-year pillar's year fraction. -/
theorem tauP10 : yfISMA valuation_date ⟨2028, 7, 24⟩ none = 9 := by
  have h := yfISMA_noref_whole_years valuation_date ⟨2028, 7, 24⟩ 9 3289
    (by decide) (by decide) (by norm_num [round_eq]) (by norm_num)
  exact_mod_cast h

/-- The 10-year pillar's year fraction. -/
theorem tauP11 : yfISMA valuation_date ⟨2029, 7, 23⟩ none = 10 := by
  have h := yfISMA_noref_whole_years valuation_date ⟨2029, 7, 23⟩ 10 3653
    (by decide) (by decide) (by norm_num [round_eq]) (by norm_num)
  exact_mod_cast h

/-- The 11-year pillar's year fraction. -/
theorem tauP12 : yfISMA valuation_date ⟨2030, 7, 23⟩ none = 11 := by
  have h := yfISMA_noref_whole_years valuation_date ⟨2030, 7, 23⟩ 11 4018
    (by decide) (by decide) (by norm_num [round_eq]) (by norm_num)
  exact_mod_cast h

/-- The 12-year pillar's year fraction. -/
theorem tauP13 : yfISMA valuation_date ⟨2031, 7, 23⟩ none = 12 := by
  have h := yfISMA_noref_whole_years valuation_date ⟨2031, 7, 23⟩ 12 4383
    (by decide) (by decide) (by norm_num [round_eq]) (by norm_num)
  exact_mod_cast h

/-- The 15-year pillar's year fraction. -/
theorem tauP14 : yfISMA valuation_date ⟨2034, 7, 24⟩ none = 15 := by
  have h := yfISMA_noref_whole_years valuation_date ⟨2034, 7, 24⟩ 15 5480
    (by decide) (by decide) (by norm_num [round_eq]) (by norm_num)
  exact_mod_cast h

/-- The 20-year pillar's year fraction. -/
theorem tauP15 : yfISMA valuation_date ⟨2039, 7, 25⟩ none = 20 := by
  have h := yfISMA_noref_whole_years valuation_date ⟨2039, 7, 25⟩ 20 7307
    (by decide) (by decide) (by norm_num [round_eq]) (by norm_num)
  exact_mod_cast h

/-- The 25-year pillar's year fraction. -/
theorem tauP16 : yfISMA valuation_date ⟨2044, 7, 25⟩ none = 25 := by
  have h := yfISMA_noref_whole_years valuation_date ⟨2044, 7, 25⟩ 25 9134
    (by decide) (by decide) (by norm_num [round_eq]) (by norm_num)
  exact_mod_cast h

/-- The 30-year pillar's year fraction. -/
theorem tauP17 : yfISMA valuation_date ⟨2049, 7, 23⟩ none = 30 := by
  have h := yfISMA_noref_whole_years valuation_date ⟨2049, 7, 23⟩ 30 10958
    (by decide) (by decide) (by norm_num [round_eq]) (by norm_num)
  exact_mod_cast h

/-- The 40-year pillar's year fraction. -/
theorem tauP18 : yfISMA valuation_date ⟨2059, 7, 23⟩ none = 40 := by
  have h := yfISMA_noref_whole_years valuation_date ⟨2059, 7, 23⟩ 40 14610
    (by decide) (by decide) (by norm_num [round_eq]) (by norm_num)
  exact_mod_cast h

/-- The 50-year pillar's year fraction. -/
theorem tauP19 : yfISMA valuation_date ⟨2069, 7, 23⟩ none = 50 := by
  have h := yfISMA_noref_whole_years valuation_date ⟨2069, 7, 23⟩ 50 18263
    (by decide) (by decide) (by norm_num [round_eq]) (by norm_num)
  exact_mod_cast h

/-- C4 counterexample: the discount factor is not strictly decreasing in
date for the supplied quote set — the one-day deposit rate is negative, so
the first pillar's discount 2287500/2287477 already exceeds the reference
date's discount 1 at a strictly later date. -/
theorem C4_decreasing_counterexample :
    programCurveNodes.head? = some (valuation_date, 1) ∧
    programCurveNodes.get? 1 = some (⟨2019, 7, 24⟩, 2287500 / 2287477) ∧
    serial valuation_date < serial ⟨2019, 7, 24⟩ ∧
    (1 : ℚ) < 2287500 / 2287477 := by
  refine ⟨rfl, ?_, by decide, by norm_num⟩
  rw [show programCurveNodes.get? 1 =
      some (⟨2019, 7, 24⟩, 1 / (1 + (-0.00368 : ℚ) * yfISMA valuation_date ⟨2019, 7, 24⟩ none)) from rfl]
  rw [tauP1]
  norm_num

/-- C4 (amended): the curve's discount factor at the valuation date equals
1, the pillar dates strictly increase, and the pillar discounts are not
monotone in date: they strictly increase out to the 5-year pillar (the
negative short-tenor deposit rates push the discount above 1) and strictly
decrease from the 5-year pillar onward. -/
theorem C4_curve_nodes_amended :
    programCurveNodes.head? = some (valuation_date, 1) ∧
    List.Chain' (fun p q => serial p.1 < serial q.1) programCurveNodes ∧
    List.Chain' (fun p q : Date × ℚ => p.2 < q.2) (programCurveNodes.take 7) ∧
    List.Chain' (fun p q : Date × ℚ => q.2 < p.2) (programCurveNodes.drop 6) := by
  refine ⟨rfl, ?_, ?_, ?_⟩
  · show List.Chain' (fun p q : Date × ℚ => serial p.1 < serial q.1)
      [(valuation_date, 1),
       (⟨2019, 7, 24⟩, 1 / (1 + (-0.00368 : ℚ) * yfISMA valuation_date ⟨2019, 7, 24⟩ none)),
       (⟨2020, 7, 23⟩, 1 / (1 + (-0.004313 : ℚ) * yfISMA valuation_date ⟨2020, 7, 23⟩ none)),
       (⟨2021, 7, 23⟩, 1 / (1 + (-0.0046 : ℚ) * yfISMA valuation_date ⟨2021, 7, 23⟩ none)),
       (⟨2022, 7, 25⟩, 1 / (1 + (-0.00435 : ℚ) * yfISMA valuation_date ⟨2022, 7, 25⟩ none)),
       (⟨2023, 7, 24⟩, 1 / (1 + (-0.0038 : ℚ) * yfISMA valuation_date ⟨2023, 7, 24⟩ none)),
       (⟨2024, 7, 23⟩, 1 / (1 + (-0.003113 : ℚ) * yfISMA valuation_date ⟨2024, 7, 23⟩ none)),
       (⟨2025, 7, 23⟩, 1 / (1 + (-0.002350 : ℚ) * yfISMA valuation_date ⟨2025, 7, 23⟩ none)),
       (⟨2026, 7, 23⟩, 1 / (1 + (-0.001525 : ℚ) * yfISMA valuation_date ⟨2026, 7, 23⟩ none)),
       (⟨2027, 7, 23⟩, 1 / (1 + (-0.000663 : ℚ) * yfISMA valuation_date ⟨2027, 7, 23⟩ none)),
       (⟨2028, 7, 24⟩, 1 / (1 + (0.000188 : ℚ) * yfISMA valuation_date ⟨2028, 7, 24⟩ none)),
       (⟨2029, 7, 23⟩, 1 / (1 + (0.001 : ℚ) * yfISMA valuation_date ⟨2029, 7, 23⟩ none)),
       (⟨2030, 7, 23⟩, 1 / (1 + (0.00171 : ℚ) * yfISMA valuation_date ⟨2030, 7, 23⟩ none)),
       (⟨2031, 7, 23⟩, 1 / (1 + (0.00245 : ℚ) * yfISMA valuation_date ⟨2031, 7, 23⟩ none)),
       (⟨2034, 7, 24⟩, 1 / (1 + (0.004175 : ℚ) * yfISMA valuation_date ⟨2034, 7, 24⟩ none)),
       (⟨2039, 7, 25⟩, 1 / (1 + (0.005863 : ℚ) * yfISMA valuation_date ⟨2039, 7, 25⟩ none)),
       (⟨2044, 7, 25⟩, 1 / (1 + (0.006475 : ℚ) * yfISMA valuation_date ⟨2044, 7, 25⟩ none)),
       (⟨2049, 7, 23⟩, 1 / (1 + (0.006625 : ℚ) * yfISMA valuation_date ⟨2049, 7, 23⟩ none)),
       (⟨2059, 7, 23⟩, 1 / (1 + (0.006531 : ℚ) * yfISMA valuation_date ⟨2059, 7, 23⟩ none)),
       (⟨2069, 7, 23⟩, 1 / (1 + (0.006242 : ℚ) * yfISMA valuation_date ⟨2069, 7, 23⟩ none))]
    simp only [List.chain'_cons, List.chain'_singleton, and_true]
    decide
  · show List.Chain' (fun p q : Date × ℚ => p.2 < q.2)
      [(valuation_date, 1),
       (⟨2019, 7, 24⟩, 1 / (1 + (-0.00368 : ℚ) * yfISMA valuation_date ⟨2019, 7, 24⟩ none)),
       (⟨2020, 7, 23⟩, 1 / (1 + (-0.004313 : ℚ) * yfISMA valuation_date ⟨2020, 7, 23⟩ none)),
       (⟨2021, 7, 23⟩, 1 / (1 + (-0.0046 : ℚ) * yfISMA valuation_date ⟨2021, 7, 23⟩ none)),
       (⟨2022, 7, 25⟩, 1 / (1 + (-0.00435 : ℚ) * yfISMA valuation_date ⟨2022, 7, 25⟩ none)),
       (⟨2023, 7, 24⟩, 1 / (1 + (-0.0038 : ℚ) * yfISMA valuation_date ⟨2023, 7, 24⟩ none)),
       (⟨2024, 7, 23⟩, 1 / (1 + (-0.003113 : ℚ) * yfISMA valuation_date ⟨2024, 7, 23⟩ none))]
    norm_num [List.chain'_cons, List.chain'_singleton, tauP1, tauP2, tauP3, tauP4, tauP5, tauP6, tauP7, tauP8, tauP9, tauP10, tauP11, tauP12, tauP13, tauP14, tauP15, tauP16, tauP17, tauP18, tauP19]
  · show List.Chain' (fun p q : Date × ℚ => q.2 < p.2)
      [(⟨2024, 7, 23⟩, 1 / (1 + (-0.003113 : ℚ) * yfISMA valuation_date ⟨2024, 7, 23⟩ none)),
       (⟨2025, 7, 23⟩, 1 / (1 + (-0.002350 : ℚ) * yfISMA valuation_date ⟨2025, 7, 23⟩ none)),
       (⟨2026, 7, 23⟩, 1 / (1 + (-0.001525 : ℚ) * yfISMA valuation_date ⟨2026, 7, 23⟩ none)),
       (⟨2027, 7, 23⟩, 1 / (1 + (-0.000663 : ℚ) * yfISMA valuation_date ⟨2027, 7, 23⟩ none)),
       (⟨2028, 7, 24⟩, 1 / (1 + (0.000188 : ℚ) * yfISMA valuation_date ⟨2028, 7, 24⟩ none)),
       (⟨2029, 7, 23⟩, 1 / (1 + (0.001 : ℚ) * yfISMA valuation_date ⟨2029, 7, 23⟩ none)),
       (⟨2030, 7, 23⟩, 1 / (1 + (0.00171 : ℚ) * yfISMA valuation_date ⟨2030, 7, 23⟩ none)),
       (⟨2031, 7, 23⟩, 1 / (1 + (0.00245 : ℚ) * yfISMA valuation_date ⟨2031, 7, 23⟩ none)),
       (⟨2034, 7, 24⟩, 1 / (1 + (0.004175 : ℚ) * yfISMA valuation_date ⟨2034, 7, 24⟩ none)),
       (⟨2039, 7, 25⟩, 1 / (1 + (0.005863 : ℚ) * yfISMA valuation_date ⟨2039, 7, 25⟩ none)),
       (⟨2044, 7, 25⟩, 1 / (1 + (0.006475 : ℚ) * yfISMA valuation_date ⟨2044, 7, 25⟩ none)),
       (⟨2049, 7, 23⟩, 1 / (1 + (0.006625 : ℚ) * yfISMA valuation_date ⟨2049, 7, 23⟩ none)),
       (⟨2059, 7, 23⟩, 1 / (1 + (0.006531 : ℚ) * yfISMA valuation_date ⟨2059, 7, 23⟩ none)),
       (⟨2069, 7, 23⟩, 1 / (1 + (0.006242 : ℚ) * yfISMA valuation_date ⟨2069, 7, 23⟩ none))]
    norm_num [List.chain'_cons, List.chain'_singleton, tauP1, tauP2, tauP3, tauP4, tauP5, tauP6, tauP7, tauP8, tauP9, tauP10, tauP11, tauP12, tauP13, tauP14, tauP15, tauP16, tauP17, tauP18, tauP19]

/-- Every coupon `mkCouponsAux` emits carries the notional and rate it was
given. -/
theorem mkCouponsAux_nominal_rate (t : ℤ) (cal : Calendar) (conv : BDC)
    (nom rate : ℚ) (l : List Date) :
    ∀ (flag : Bool) (prev : Date) (c : Coupon),
      c ∈ mkCouponsAux t cal conv nom rate flag prev l →
      c.nominal = nom ∧ c.rate = rate := by
  induction l with
  | nil =>
    intro flag prev c hc
    simp [mkCouponsAux] at hc
  | cons d rest ih =>
    intro flag prev c hc
    simp only [mkCouponsAux, List.mem_cons] at hc
    rcases hc with h | h
    · subst h; exact ⟨rfl, rfl⟩
    · exact ih false d c h

/-- Every coupon of a `mkCoupons` leg carries the notional and rate it was
given. -/
theorem mkCoupons_nominal_rate (sched : List Date) (t : ℕ) (cal : Calendar)
    (conv : BDC) (nom rate : ℚ) :
    ∀ c ∈ mkCoupons sched t cal conv nom rate,
      c.nominal = nom ∧ c.rate = rate := by
  cases sched with
  | nil => intro c hc; simp [mkCoupons] at hc
  | cons s0 rest =>
    intro c hc
    exact mkCouponsAux_nominal_rate (t : ℤ) cal conv nom rate rest true s0 c hc

/-- Every coupon of a `getBond` bond carries the face and rate passed in. -/
theorem getBond_coupon_fields (v m : Date) (f : ℕ) (cal : Calendar)
    (fa cr : ℚ) (pc : BDC) (base : ℝ → ℝ) (z : ℝ) :
    ∀ c ∈ (getBond v m f cal fa cr pc base z).data.coupons,
      c.nominal = fa ∧ c.rate = cr := by
  intro c hc
  exact mkCoupons_nominal_rate _ f cal pc fa cr c hc

/-- C6: for every face value passed to the bond constructor, each coupon's
amount is the coupon rate applied to that face over its day-count fraction,
and the redemption pays par — the `100` passed to `FixedRateBond` is a
percentage of face, so the redemption amount is the face amount itself. -/
theorem C6_coupons_and_redemption (faceAmount : ℚ) (base : ℝ → ℝ) (z : ℝ) :
    ((getBond valuation_date maturityDate paymentFrequencyMonths germany
        faceAmount coupon .modifiedFollowing base z).data.coupons).map
        Coupon.amount =
      ((getBond valuation_date maturityDate paymentFrequencyMonths germany
        faceAmount coupon .modifiedFollowing base z).data.coupons).map
        (fun c => faceAmount * coupon *
          yfISMA c.accrualStart c.accrualEnd (some (c.refStart, c.refEnd))) ∧
    (getBond valuation_date maturityDate paymentFrequencyMonths germany
        faceAmount coupon .modifiedFollowing base z).data.redemption.amount =
      faceAmount := by
  constructor
  · apply List.map_congr_left
    intro c hc
    obtain ⟨h1, h2⟩ :=
      getBond_coupon_fields valuation_date maturityDate paymentFrequencyMonths
        germany faceAmount coupon .modifiedFollowing base z c hc
    simp only [Coupon.amount, h1, h2]
  · show faceAmount * 100 / 100 = faceAmount
    rw [mul_div_assoc]
    norm_num

/-- C8: applying a spread builds a fresh bond — the rebuilt bond shares the
zero-spread bond's cash-flow data, its engine references the same base curve
with the new spread baked in, and it is a different bond value; the original
bond's engine still carries spread 0 and the base curve is passed through
unchanged. -/
theorem C8_rebuild_not_mutate (base : ℝ → ℝ) (z : ℝ) (hz : z ≠ 0) :
    (programBond base z).data = (programBond base 0).data ∧
    (programBond base z).engineBase = base ∧
    (programBond base 0).engineBase = base ∧
    (programBond base z).engineSpread = z ∧
    (programBond base 0).engineSpread = 0 ∧
    programBond base z ≠ programBond base 0 := by
  refine ⟨rfl, rfl, rfl, rfl, rfl, fun h => hz ?_⟩
  exact congrArg Bond.engineSpread h

/-- C8 witness at the concrete spread 1 over a flat unit curve. -/
theorem C8_rebuild_not_mutate_witness :
    (programBond (fun _ => 1) 1).data = (programBond (fun _ => 1) 0).data ∧
    (programBond (fun _ => 1) 1).engineBase = (fun _ => 1) ∧
    (programBond (fun _ => 1) 0).engineBase = (fun _ => 1) ∧
    (programBond (fun _ => 1) 1).engineSpread = 1 ∧
    (programBond (fun _ => 1) 0).engineSpread = 0 ∧
    programBond (fun _ => 1) 1 ≠ programBond (fun _ => 1) 0 :=
  C8_rebuild_not_mutate (fun _ => 1) 1 one_ne_zero

/-- C10: `getBond` is deterministic under the fixed global evaluation date —
two bonds built by identical calls coincide, so their NPVs and accrued
amounts agree; and the accrued amount of the bond rebuilt with any solved
spread equals the accrued amount added to the clean price before the solve
(the cash-flow data never depends on the spread). -/
theorem C10_getBond_deterministic (base : ℝ → ℝ) (z : ℝ) (b1 b2 : Bond)
    (h1 : b1 = programBond base z) (h2 : b2 = programBond base z) :
    b1 = b2 ∧ b1.npv evaluationDate = b2.npv evaluationDate ∧
    b1.data.accruedAmount evaluationDate = b2.data.accruedAmount evaluationDate ∧
    (programBond base z).data.accruedAmount evaluationDate = programAccrued := by
  subst h1
  subst h2
  exact ⟨rfl, rfl, rfl, rfl⟩

/-- C10 witness: the two bonds of one concrete double call. -/
theorem C10_getBond_deterministic_witness :
    programBond (fun _ => 1) 0 = programBond (fun _ => 1) 0 ∧
    (programBond (fun _ => 1) 0).npv evaluationDate =
      (programBond (fun _ => 1) 0).npv evaluationDate ∧
    (programBond (fun _ => 1) 0).data.accruedAmount evaluationDate =
      (programBond (fun _ => 1) 0).data.accruedAmount evaluationDate ∧
    (programBond (fun _ => 1) 0).data.accruedAmount evaluationDate =
      programAccrued :=
  C10_getBond_deterministic (fun _ => 1) 0 _ _ rfl rfl

/-- One cash flow's solver discount strictly decreases in the spread, on the
domain where the shifted compounding factor stays positive. -/
theorem stcSpreadedDiscount_lt (base : ℝ → ℝ) (p : ℝ × ℝ) (hp : 0 < p.2)
    {z z' : ℝ} (hzz : z < z') (h1 : shiftOK base z p) (h2 : shiftOK base z' p) :
    stcSpreadedDiscount base z' p.2 < stcSpreadedDiscount base z p.2 := by
  obtain ⟨a, t⟩ := p
  simp only at hp ⊢
  by_cases hle : t ≤ 1
  · simp only [shiftOK, if_pos hle] at h1 h2
    simp only [stcSpreadedDiscount, stcDiscount, if_pos hle]
    have hlt : 1 + (stcZeroRate (base t) t + z) * t <
        1 + (stcZeroRate (base t) t + z') * t := by nlinarith
    exact one_div_lt_one_div_of_lt h1 hlt
  · simp only [shiftOK, if_neg hle] at h1 h2
    simp only [stcSpreadedDiscount, stcDiscount, if_neg hle]
    have hx : (0 : ℝ) < 1 + (stcZeroRate (base t) t + z) := by linarith
    have hx' : (0 : ℝ) < 1 + (stcZeroRate (base t) t + z') := by linarith
    have hpow : (1 + (stcZeroRate (base t) t + z)) ^ t <
        (1 + (stcZeroRate (base t) t + z')) ^ t :=
      Real.rpow_lt_rpow hx.le (by linarith) hp
    rw [Real.rpow_neg hx.le, Real.rpow_neg hx'.le]
    exact inv_lt_inv_of_lt (Real.rpow_pos_of_pos hx t) hpow

/-- A nonempty leg of positive cash flows at positive times has a strictly
smaller solver present value at a strictly larger spread. -/
theorem legPV_lt (base : ℝ → ℝ) {z z' : ℝ} (hzz : z < z') :
    ∀ leg : List (ℝ × ℝ), leg ≠ [] →
      (∀ p ∈ leg, 0 < p.1 ∧ 0 < p.2) →
      (∀ p ∈ leg, shiftOK base z p) → (∀ p ∈ leg, shiftOK base z' p) →
      legPV base z' leg < legPV base z leg := by
  intro leg
  induction leg with
  | nil => intro h; exact absurd rfl h
  | cons p l ih =>
    intro _ hpos h1 h2
    have hphead := hpos p (List.mem_cons_self p l)
    have hterm : p.1 * stcSpreadedDiscount base z' p.2 <
        p.1 * stcSpreadedDiscount base z p.2 :=
      mul_lt_mul_of_pos_left
        (stcSpreadedDiscount_lt base p hphead.2 hzz
          (h1 p (List.mem_cons_self p l)) (h2 p (List.mem_cons_self p l)))
        hphead.1
    cases l with
    | nil => simpa [legPV] using hterm
    | cons q m =>
      have htail := ih (List.cons_ne_nil q m)
        (fun x hx => hpos x (List.mem_cons_of_mem p hx))
        (fun x hx => h1 x (List.mem_cons_of_mem p hx))
        (fun x hx => h2 x (List.mem_cons_of_mem p hx))
      simp only [legPV, List.map_cons, List.sum_cons] at htail ⊢
      exact add_lt_add hterm htail

/-- C5: the spread solve is strictly antitone in the target price. With the
curve and leg fixed — a nonempty leg of positive flows at positive times,
the shifted factors staying positive — if the solver's objective `legPV`
(its present value under the spread-shifted curve, the quantity
`CashFlows.zSpread` equates with the target) reaches `p1` at spread `z1` and
`p2` at spread `z2`, then `p1 < p2` forces `z2 < z1`: the higher target
price is solved by the strictly lower spread, and conversely. -/
theorem C5_spread_price_monotone (base : ℝ → ℝ) (leg : List (ℝ × ℝ))
    (z1 z2 p1 p2 : ℝ) (hne : leg ≠ [])
    (hpos : ∀ p ∈ leg, 0 < p.1 ∧ 0 < p.2)
    (hd1 : ∀ p ∈ leg, shiftOK base z1 p) (hd2 : ∀ p ∈ leg, shiftOK base z2 p)
    (h1 : legPV base z1 leg = p1) (h2 : legPV base z2 leg = p2)
    (hp : p1 < p2) : z2 < z1 := by
  rcases lt_trichotomy z1 z2 with h | h | h
  · have hlt := legPV_lt base h leg hne hpos hd1 hd2
    rw [h1, h2] at hlt
    exact absurd hp (not_lt.mpr hlt.le)
  · rw [h] at h1
    exact absurd (h1.symm.trans h2) hp.ne
  · exact h

/-- C5 witness: one unit flow after one year on a flat unit curve; the
target 1/2 is solved by spread 1, the target 1 by spread 0. -/
theorem C5_spread_price_monotone_witness : (0 : ℝ) < 1 :=
  C5_spread_price_monotone (fun _ => 1) [(1, 1)] 1 0 (1 / 2) 1
    (by simp)
    (by intro p hp; rw [List.mem_singleton] at hp; subst hp; norm_num)
    (by intro p hp; rw [List.mem_singleton] at hp; subst hp;
        norm_num [shiftOK, stcZeroRate])
    (by intro p hp; rw [List.mem_singleton] at hp; subst hp;
        norm_num [shiftOK, stcZeroRate])
    (by norm_num [legPV, stcSpreadedDiscount, stcDiscount, stcZeroRate])
    (by norm_num [legPV, stcSpreadedDiscount, stcDiscount, stcZeroRate])
    (by norm_num)

/-- C1 (code-bug evidence): the solve and the re-price shift the curve under
different compoundings. For a unit flow at time 2 on a flat unit curve with
spread 1, the solver's objective (`legPV`, SimpleThenCompounded shift — the
compounding the script passes to `CashFlows.zSpread`) prices it at exactly
1/4, so a solver run with target 1/4 converges at that spread; but the
rebuilt bond's engine (`legPVCont`, the Continuous-compounding default of
the `ZeroSpreadedTermStructure` built in `getBond`) prices the same leg at
`exp (-2)`, missing the target by more than the 10⁻¹⁰ solver accuracy. -/
theorem C1_compounding_mismatch :
    legPV (fun _ => 1) 1 [(1, 2)] = 1 / 4 ∧
    legPVCont (fun _ => 1) 1 [(1, 2)] < 1 / 4 - 1 / 10 ^ 10 := by
  have h21 : ¬ ((2 : ℝ) ≤ 1) := by norm_num
  constructor
  · simp only [legPV, List.map_cons, List.map_nil, List.sum_cons, List.sum_nil,
      add_zero, one_mul, stcSpreadedDiscount, stcZeroRate, stcDiscount,
      if_neg h21, Real.one_rpow]
    rw [show (1 : ℝ) + (1 - 1 + 1) = 2 by norm_num,
      show (-(2 : ℝ)) = ((-2 : ℤ) : ℝ) by norm_num, Real.rpow_intCast]
    norm_num
  · simp only [legPVCont, List.map_cons, List.map_nil, List.sum_cons,
      List.sum_nil, add_zero, one_mul, contSpreadedDiscount, Real.log_one]
    rw [show (-(-(0 : ℝ) / 2 + 1) * 2) = -2 by norm_num]
    have h1 := Real.exp_one_gt_d9
    have h0 := Real.exp_pos 1
    have he : (7 : ℝ) < Real.exp 2 := by
      rw [show (2 : ℝ) = 1 + 1 by norm_num, Real.exp_add]
      nlinarith
    have h7 : Real.exp (-2) < 7⁻¹ := by
      rw [Real.exp_neg]
      exact inv_lt_inv_of_lt (by norm_num) he
    have : (7 : ℝ)⁻¹ < 1 / 4 - 1 / 10 ^ 10 := by norm_num
    linarith

end ZSpread
